import Mathlib

/-!
Verification of the mechanism engine of the ykcs11 module
(`src/ykcs11/mechanisms.c`).  The C functions are shallowly embedded as
executable Lean functions over an explicit operation-context state.
External collaborators (OpenSSL digest/padding/verify primitives, the
ykpiv hardware channel) are passed in as oracle structures, mirroring the
call shapes of the C code.
-/

namespace Ykcs11

/-- PKCS#11 return values (`CK_RV`) used by the mechanism engine.
Modeled as an enumeration; the code only ever compares them for
equality. -/
inductive CK_RV where
  | CKR_OK
  | CKR_MECHANISM_INVALID
  | CKR_MECHANISM_PARAM_INVALID
  | CKR_ARGUMENTS_BAD
  | CKR_KEY_TYPE_INCONSISTENT
  | CKR_ATTRIBUTE_VALUE_INVALID
  | CKR_DATA_LEN_RANGE
  | CKR_BUFFER_TOO_SMALL
  | CKR_FUNCTION_FAILED
  | CKR_SIGNATURE_INVALID
  | CKR_USER_NOT_LOGGED_IN
  | CKR_DEVICE_ERROR
  | CKR_HOST_MEMORY
  deriving DecidableEq, Repr

export CK_RV (CKR_OK CKR_MECHANISM_INVALID CKR_MECHANISM_PARAM_INVALID
  CKR_ARGUMENTS_BAD CKR_KEY_TYPE_INCONSISTENT CKR_ATTRIBUTE_VALUE_INVALID
  CKR_DATA_LEN_RANGE CKR_BUFFER_TOO_SMALL CKR_FUNCTION_FAILED
  CKR_SIGNATURE_INVALID CKR_USER_NOT_LOGGED_IN CKR_DEVICE_ERROR
  CKR_HOST_MEMORY)

/-- Return codes of the ykpiv hardware channel (`ykpiv_rc`).  Only the
distinctions the mechanism engine tests are needed; further failure
codes are representative members of the "any other failure" class. -/
inductive ykpiv_rc where
  | YKPIV_OK
  | YKPIV_MEMORY_ERROR
  | YKPIV_PCSC_ERROR
  | YKPIV_GENERIC_ERROR
  | YKPIV_AUTHENTICATION_ERROR
  | YKPIV_ARGUMENT_ERROR
  deriving DecidableEq, Repr

export ykpiv_rc (YKPIV_OK YKPIV_MEMORY_ERROR YKPIV_PCSC_ERROR
  YKPIV_GENERIC_ERROR YKPIV_AUTHENTICATION_ERROR YKPIV_ARGUMENT_ERROR)

/-! Mechanism identifiers (`CK_MECHANISM_TYPE`).  `CK_MECHANISM_TYPE` is a
`CK_ULONG`; the values below are the standard PKCS#11 header values
(`pkcs11t.h`, vendored by the repository outside `src/`).  In particular
the deprecated `CKM_ECDSA_KEY_PAIR_GEN` is defined by the header as the
same numeric value as `CKM_EC_KEY_PAIR_GEN`. -/

def CKM_RSA_PKCS_KEY_PAIR_GEN : Nat := 0x0000
def CKM_RSA_PKCS : Nat := 0x0001
def CKM_RSA_X_509 : Nat := 0x0003
def CKM_MD5_RSA_PKCS : Nat := 0x0005
def CKM_SHA1_RSA_PKCS : Nat := 0x0006
def CKM_RIPEMD160_RSA_PKCS : Nat := 0x0008
def CKM_RSA_PKCS_OAEP : Nat := 0x0009
def CKM_RSA_PKCS_PSS : Nat := 0x000D
def CKM_SHA1_RSA_PKCS_PSS : Nat := 0x000E
def CKM_SHA256_RSA_PKCS : Nat := 0x0040
def CKM_SHA384_RSA_PKCS : Nat := 0x0041
def CKM_SHA512_RSA_PKCS : Nat := 0x0042
def CKM_SHA256_RSA_PKCS_PSS : Nat := 0x0043
def CKM_SHA384_RSA_PKCS_PSS : Nat := 0x0044
def CKM_SHA512_RSA_PKCS_PSS : Nat := 0x0045
def CKM_SHA_1 : Nat := 0x0220
def CKM_SHA256 : Nat := 0x0250
def CKM_SHA384 : Nat := 0x0260
def CKM_SHA512 : Nat := 0x0270
def CKM_EC_KEY_PAIR_GEN : Nat := 0x1040
/-- Deprecated alias: the PKCS#11 header defines `CKM_ECDSA_KEY_PAIR_GEN`
with the same numeric value as `CKM_EC_KEY_PAIR_GEN`. -/
def CKM_ECDSA_KEY_PAIR_GEN : Nat := 0x1040
def CKM_ECDSA : Nat := 0x1041
def CKM_ECDSA_SHA1 : Nat := 0x1042
def CKM_ECDSA_SHA224 : Nat := 0x1043
def CKM_ECDSA_SHA256 : Nat := 0x1044
def CKM_ECDSA_SHA384 : Nat := 0x1045
def CKM_ECDSA_SHA512 : Nat := 0x1046
def CKM_EC_EDWARDS_KEY_PAIR_GEN : Nat := 0x1055
def CKM_EC_MONTGOMERY_KEY_PAIR_GEN : Nat := 0x1056
def CKM_EDDSA : Nat := 0x1057

/-- Mask generation function identifiers (`CK_RSA_PKCS_MGF_TYPE`). -/
def CKG_MGF1_SHA1 : Nat := 0x0001
def CKG_MGF1_SHA256 : Nat := 0x0002
def CKG_MGF1_SHA384 : Nat := 0x0003
def CKG_MGF1_SHA512 : Nat := 0x0004
def CKG_MGF1_SHA224 : Nat := 0x0005

/-- OAEP source type: label data supplied explicitly. -/
def CKZ_DATA_SPECIFIED : Nat := 0x0001

/-! OpenSSL RSA padding tags, as used by the code. -/

def RSA_PKCS1_PADDING : Nat := 1
def RSA_NO_PADDING : Nat := 3
def RSA_PKCS1_OAEP_PADDING : Nat := 4
def RSA_PKCS1_PSS_PADDING : Nat := 6

/-! ykpiv algorithm tags (`YKPIV_ALGO_*`, from the ykpiv header). -/

def YKPIV_ALGO_RSA1024 : Nat := 0x06
def YKPIV_ALGO_RSA2048 : Nat := 0x07
def YKPIV_ALGO_ECCP256 : Nat := 0x11
def YKPIV_ALGO_ECCP384 : Nat := 0x14

/-- `sizeof(CK_RSA_PKCS_PSS_PARAMS)`: three `CK_ULONG` fields (LP64). -/
def sizeof_CK_RSA_PKCS_PSS_PARAMS : Nat := 24

/-- `sizeof(CK_RSA_PKCS_OAEP_PARAMS)` (LP64, with padding). -/
def sizeof_CK_RSA_PKCS_OAEP_PARAMS : Nat := 40

/-- Modelled from the spec: the per-session operation buffer
`op_info.buf` is a fixed 1024-byte array (declared in `ykcs11.h`, outside
`src/`; §3 of the spec fixes the capacity at 1024 bytes). -/
def OP_INFO_BUF_SIZE : Nat := 1024

/-- Hash descriptors returned by the trusted library (`EVP_sha1()` etc.).
The library returns one singleton descriptor per hash, so C pointer
equality of descriptors coincides with equality of this enumeration. -/
inductive MD where
  | sha1
  | sha224
  | sha256
  | sha384
  | sha512
  deriving DecidableEq, Repr

/-- `EVP_MD_size` of each hash descriptor. -/
def MD.size : MD → Nat
  | .sha1 => 20
  | .sha224 => 28
  | .sha256 => 32
  | .sha384 => 48
  | .sha512 => 64

/-- `EVP_MD_by_mechanism` (mechanisms.c lines 49-68): maps a hash or MGF
mechanism identifier to a hash descriptor, `none` for anything else. -/
def EVP_MD_by_mechanism (m : Nat) : Option MD :=
  if m = CKM_SHA_1 ∨ m = CKG_MGF1_SHA1 then some .sha1
  else if m = CKG_MGF1_SHA224 then some .sha224
  else if m = CKM_SHA256 ∨ m = CKG_MGF1_SHA256 then some .sha256
  else if m = CKM_SHA384 ∨ m = CKG_MGF1_SHA384 then some .sha384
  else if m = CKM_SHA512 ∨ m = CKG_MGF1_SHA512 then some .sha512
  else none

/-- An `EVP_MD_CTX` as visible to this module: the hash it was
initialized with (`none` for the EdDSA verify context, which is
initialized with a NULL digest) and the bytes absorbed so far. -/
structure MdCtx where
  md : Option MD
  data : List Nat
  deriving DecidableEq, Repr

/-- A public key handle as seen through the key-introspection interface
(`EVP_PKEY_get0_RSA` / `do_get_key_type` / `do_get_signature_size` /
`do_get_key_algorithm`). -/
structure PKey where
  isRSA : Bool
  sigSize : Nat
  algorithm : Nat
  deriving DecidableEq, Repr

/-- The `sign` arm of the per-session operation union. -/
structure SignOp where
  rsa : Bool
  algorithm : Nat
  piv_key : Nat
  padding : Nat
  pss_md : Option MD
  mgf1_md : Option MD
  pss_slen : Nat
  deriving DecidableEq, Repr

/-- The `verify` arm of the per-session operation union.  `pkey_ctx`
records whether the raw verify context pointer is non-null. -/
structure VerifyOp where
  pkey_ctx : Bool
  padding : Nat
  deriving DecidableEq, Repr

/-- The `encrypt` arm of the per-session operation union.  The owned
OAEP label is `some bytes` when allocated, `none` when the pointer is
NULL. -/
structure EncryptOp where
  algorithm : Nat
  piv_key : Nat
  padding : Nat
  oaep_md : Option MD
  mgf1_md : Option MD
  oaep_label : Option (List Nat)
  key : Option PKey
  deriving DecidableEq, Repr

/-- The per-session operation context `op_info`.  The C union of the
three operation arms is modeled as a product; each protocol touches only
its own arm.  `buf` models the first `buf_len` bytes of the fixed
1024-byte scratch buffer, so `buf.length` is `buf_len`. -/
structure OpInfo where
  mechanism : Nat
  md_ctx : Option MdCtx
  buf : List Nat
  out_len : Nat
  sign : SignOp
  verify : VerifyOp
  encrypt : EncryptOp
  deriving DecidableEq, Repr

/-- Success/failure switches for the trusted-library calls whose results
the code only tests for success (`EVP_MD_CTX_create`,
`EVP_DigestInit_ex`, `EVP_DigestVerifyInit`, `EVP_PKEY_CTX_new`,
`EVP_PKEY_verify_init`, the `EVP_PKEY_CTX_set_*` family and
`EVP_DigestUpdate`). -/
structure LibExt where
  createOk : Bool
  digestInitOk : Bool
  digestVerifyInitOk : Bool
  pkeyCtxNewOk : Bool
  verifyInitOk : Bool
  setPaddingOk : Bool
  setSigMdOk : Bool
  setMgf1Ok : Bool
  setSaltlenOk : Bool
  digestUpdateOk : Bool
  deriving DecidableEq, Repr

/-- The all-successful library environment. -/
def extOk : LibExt :=
  ⟨true, true, true, true, true, true, true, true, true, true⟩

/-- `digest_mechanism_update` (mechanisms.c lines 647-663).  When a
digest context is open and the mechanism is not EdDSA the input is
streamed into the running hash; otherwise it is appended to the bounded
operation buffer, failing with `CKR_DATA_LEN_RANGE` (and leaving the
state untouched) when it would overflow the 1024-byte capacity. -/
def digest_mechanism_update (ext : LibExt) (st : OpInfo) (input : List Nat) :
    CK_RV × OpInfo :=
  if st.md_ctx.isSome ∧ st.mechanism ≠ CKM_EDDSA then
    if ext.digestUpdateOk = false then (CKR_FUNCTION_FAILED, st)
    else
      (CKR_OK, { st with md_ctx := st.md_ctx.map fun c => { c with data := c.data ++ input } })
  else
    if st.buf.length + input.length > OP_INFO_BUF_SIZE then (CKR_DATA_LEN_RANGE, st)
    else (CKR_OK, { st with buf := st.buf ++ input })

/-- `digest_mechanism_init` (mechanisms.c lines 600-645). -/
def digest_mechanism_init (ext : LibExt) (st0 : OpInfo) (m : Nat) :
    CK_RV × OpInfo :=
  let st := { st0 with mechanism := m }
  let md : Option MD :=
    if m = CKM_SHA_1 then some .sha1
    else if m = CKM_SHA256 then some .sha256
    else if m = CKM_SHA384 then some .sha384
    else if m = CKM_SHA512 then some .sha512
    else none
  match md with
  | none => (CKR_MECHANISM_INVALID, st)
  | some md0 =>
    if ext.createOk = false then (CKR_FUNCTION_FAILED, { st with md_ctx := none })
    else if ext.digestInitOk = false then (CKR_FUNCTION_FAILED, { st with md_ctx := none })
    else
      (CKR_OK, { st with md_ctx := some ⟨some md0, []⟩, out_len := md0.size, buf := [] })

/-- `CK_RSA_PKCS_PSS_PARAMS`: declared hash mechanism, MGF identifier
and salt length. -/
structure PssParams where
  hashAlg : Nat
  mgf : Nat
  sLen : Nat
  deriving DecidableEq, Repr

/-- The mechanism argument of `sign_mechanism_init` /
`verify_mechanism_init` (`CK_MECHANISM`): the identifier, the parameter
block interpreted as `CK_RSA_PKCS_PSS_PARAMS` when present, and the
declared parameter length. -/
structure SignMech where
  mechanism : Nat
  pParameter : Option PssParams
  ulParameterLen : Nat
  deriving DecidableEq, Repr

/-- The hash selection performed by the first `switch` of
`sign_mechanism_init` (lines 82-122) and `verify_mechanism_init`
(lines 333-375); the two case lists are identical.  `none` means the
mechanism is unsupported (`CKR_MECHANISM_INVALID`); `some h` gives the
hash the mechanism implies (`h = none`: no hash). -/
def implied_md (m : Nat) : Option (Option MD) :=
  if m = CKM_RSA_X_509 ∨ m = CKM_RSA_PKCS ∨ m = CKM_RSA_PKCS_PSS ∨
     m = CKM_ECDSA ∨ m = CKM_EDDSA then some none
  else if m = CKM_SHA1_RSA_PKCS ∨ m = CKM_SHA1_RSA_PKCS_PSS ∨ m = CKM_ECDSA_SHA1 then
    some (some .sha1)
  else if m = CKM_ECDSA_SHA224 then some (some .sha224)
  else if m = CKM_SHA256_RSA_PKCS ∨ m = CKM_SHA256_RSA_PKCS_PSS ∨ m = CKM_ECDSA_SHA256 then
    some (some .sha256)
  else if m = CKM_SHA384_RSA_PKCS ∨ m = CKM_SHA384_RSA_PKCS_PSS ∨ m = CKM_ECDSA_SHA384 then
    some (some .sha384)
  else if m = CKM_SHA512_RSA_PKCS ∨ m = CKM_SHA512_RSA_PKCS_PSS ∨ m = CKM_ECDSA_SHA512 then
    some (some .sha512)
  else none

/-- The case labels of the PKCS1 group of the second `switch` in the
sign/verify init functions (lines 137-143 and 389-395). -/
def is_pkcs1_sign_mech (m : Nat) : Prop :=
  m = CKM_RSA_PKCS ∨ m = CKM_MD5_RSA_PKCS ∨ m = CKM_SHA1_RSA_PKCS ∨
  m = CKM_RIPEMD160_RSA_PKCS ∨ m = CKM_SHA256_RSA_PKCS ∨
  m = CKM_SHA384_RSA_PKCS ∨ m = CKM_SHA512_RSA_PKCS

instance (m : Nat) : Decidable (is_pkcs1_sign_mech m) := by
  unfold is_pkcs1_sign_mech; infer_instance

/-- The case labels of the PSS group of the second `switch` in the
sign/verify init functions (lines 151-155 and 403-407). -/
def is_pss_sign_mech (m : Nat) : Prop :=
  m = CKM_RSA_PKCS_PSS ∨ m = CKM_SHA1_RSA_PKCS_PSS ∨
  m = CKM_SHA256_RSA_PKCS_PSS ∨ m = CKM_SHA384_RSA_PKCS_PSS ∨
  m = CKM_SHA512_RSA_PKCS_PSS

instance (m : Nat) : Decidable (is_pss_sign_mech m) := by
  unfold is_pss_sign_mech; infer_instance

/-- `sign_mechanism_init` (mechanisms.c lines 70-209).  Returns the
status together with the mutated operation context; error returns carry
exactly the mutations the C code has performed up to that point. -/
def sign_mechanism_init (ext : LibExt) (st0 : OpInfo) (key : Option PKey)
    (mech : SignMech) : CK_RV × OpInfo :=
  match key with
  | none => (CKR_KEY_TYPE_INCONSISTENT, st0)
  | some key =>
    let st1 := { st0 with md_ctx := none, mechanism := mech.mechanism }
    match implied_md mech.mechanism with
    | none => (CKR_MECHANISM_INVALID, st1)
    | some md =>
      let st2 := { st1 with
        out_len := key.sigSize,
        sign := { st1.sign with rsa := key.isRSA, algorithm := key.algorithm } }
      -- lines 192-208: open a running hash when one was selected, then
      -- reset the buffered length
      let fin : OpInfo → CK_RV × OpInfo := fun st =>
        match md with
        | none => (CKR_OK, { st with md_ctx := none, buf := [] })
        | some md0 =>
          if ext.createOk = false then
            (CKR_FUNCTION_FAILED, { st with md_ctx := none })
          else if ext.digestInitOk = false then
            (CKR_FUNCTION_FAILED, { st with md_ctx := some ⟨some md0, []⟩ })
          else (CKR_OK, { st with md_ctx := some ⟨some md0, []⟩, buf := [] })
      if mech.mechanism = CKM_RSA_X_509 then
        if key.isRSA = false then (CKR_KEY_TYPE_INCONSISTENT, st2)
        else fin { st2 with sign := { st2.sign with padding := RSA_NO_PADDING } }
      else if is_pkcs1_sign_mech mech.mechanism then
        if key.isRSA = false then (CKR_KEY_TYPE_INCONSISTENT, st2)
        else fin { st2 with sign := { st2.sign with padding := RSA_PKCS1_PADDING } }
      else if is_pss_sign_mech mech.mechanism then
        if key.isRSA = false then (CKR_KEY_TYPE_INCONSISTENT, st2)
        else
          match mech.pParameter with
          | none => (CKR_MECHANISM_PARAM_INVALID, st2)
          | some pss =>
            if mech.ulParameterLen ≠ sizeof_CK_RSA_PKCS_PSS_PARAMS then
              (CKR_MECHANISM_PARAM_INVALID, st2)
            else
              let st3 := { st2 with sign := { st2.sign with
                padding := RSA_PKCS1_PSS_PADDING,
                pss_md := EVP_MD_by_mechanism pss.hashAlg,
                mgf1_md := EVP_MD_by_mechanism pss.mgf,
                pss_slen := pss.sLen } }
              if EVP_MD_by_mechanism pss.hashAlg = none then (CKR_ARGUMENTS_BAD, st3)
              else if EVP_MD_by_mechanism pss.mgf = none then (CKR_ARGUMENTS_BAD, st3)
              else if md ≠ none ∧ md ≠ EVP_MD_by_mechanism pss.hashAlg then
                (CKR_ARGUMENTS_BAD, st3)
              else fin st3
      else
        if key.isRSA = true then (CKR_KEY_TYPE_INCONSISTENT, st2)
        else fin { st2 with sign := { st2.sign with padding := 0 } }

/-- External operations invoked by `sign_mechanism_final`.  Each field
mirrors one library or hardware call, taking the same data the C call
passes and returning its result (`none` / a non-`YKPIV_OK` code for
failure). -/
structure SignExt where
  /-- `EVP_DigestFinal_ex`: finished digest of the running hash. -/
  digestFinal : MdCtx → Option (List Nat)
  /-- `prepare_rsa_signature`: wrap a digest in its `X509_SIG`
  algorithm-identifier envelope. -/
  prepare : List Nat → Option MD → Option (List Nat)
  /-- `RSA_padding_add_PKCS1_type_1 tlen from`. -/
  padType1 : Nat → List Nat → Option (List Nat)
  /-- `RSA_padding_add_PKCS1_PSS_mgf1 from pss_md mgf1_md slen` (the RSA
  modulus context argument determines only the block width, which the
  caller takes from `out_len`). -/
  padPss : List Nat → Option MD → Option MD → Nat → Option (List Nat)
  /-- `RSA_padding_add_none tlen from`. -/
  padNone : Nat → List Nat → Option (List Nat)
  /-- `ykpiv_sign_data input algorithm key`: hardware signature. -/
  pivSign : List Nat → Nat → Nat → ykpiv_rc × List Nat
  /-- `do_strip_DER_encoding_from_ECSIG sig out_len`: in-place DER
  strip; returns the status and the rewritten signature buffer. -/
  stripDER : List Nat → Nat → CK_RV × List Nat

/-- Modelled from the spec: `yrc_to_rv` lives in `src/common`/`utils`
outside `src/`; per §4.6/§7 an authentication-required hardware status
surfaces as `CKR_USER_NOT_LOGGED_IN` and other hardware failures as
device-level errors. -/
def yrc_to_rv : ykpiv_rc → CK_RV
  | YKPIV_OK => CKR_OK
  | YKPIV_AUTHENTICATION_ERROR => CKR_USER_NOT_LOGGED_IN
  | YKPIV_MEMORY_ERROR => CKR_HOST_MEMORY
  | _ => CKR_DEVICE_ERROR

/-- Reading `n` bytes from a zero-initialized scratch buffer into which
`l` was written (the `memcpy` from the local 1024-byte array). -/
def scratch_read (n : Nat) (l : List Nat) : List Nat :=
  l.take n ++ List.replicate (n - l.length) 0

/-- Result of `sign_mechanism_final`: the status, the (possibly mutated)
operation context, the bytes copied into the caller's signature buffer
(`none` when nothing was copied) and the reported signature length
(`*sig_len`; unchanged from the caller's capacity unless written). -/
structure SigResult where
  rv : CK_RV
  st : OpInfo
  out : Option (List Nat)
  sig_len : Nat
  deriving Repr

/-- `sign_mechanism_final` (mechanisms.c lines 211-294).  `sigCap` is the
caller's declared capacity (`*sig_len` on entry).  Note that the C code
finalizes the digest, overwrites the operation buffer with the padded
block and performs the hardware signature before it compares the result
length against the caller capacity.  (On the digest-failure returns the
C code may leave partially overwritten scratch bytes in `buf` while
`buf_len` is unchanged; no later read observes them and they are modeled
as the untouched buffer.) -/
def sign_mechanism_final (ext : SignExt) (st0 : OpInfo) (sigCap : Nat) : SigResult :=
  -- lines 213-229: finalize the running hash into the buffer
  let stage1 : Except CK_RV OpInfo :=
    match st0.md_ctx with
    | none => .ok st0
    | some ctx =>
      match ext.digestFinal ctx with
      | none => .error CKR_FUNCTION_FAILED
      | some digest =>
        if st0.sign.padding = RSA_PKCS1_PADDING then
          match ext.prepare digest ctx.md with
          | none => .error CKR_FUNCTION_FAILED
          | some wrapped => .ok { st0 with buf := wrapped }
        else .ok { st0 with buf := digest }
  match stage1 with
  | .error rv => { rv := rv, st := st0, out := none, sig_len := sigCap }
  | .ok st1 =>
    -- lines 231-261: apply the resolved padding into the scratch buffer
    -- and copy `padlen` bytes back
    let padlen := st1.out_len
    let stage2 : Except CK_RV OpInfo :=
      if st1.sign.padding = RSA_PKCS1_PADDING then
        match ext.padType1 padlen st1.buf with
        | none => .error CKR_FUNCTION_FAILED
        | some block => .ok { st1 with buf := scratch_read padlen block }
      else if st1.sign.padding = RSA_PKCS1_PSS_PADDING then
        match ext.padPss st1.buf st1.sign.pss_md st1.sign.mgf1_md st1.sign.pss_slen with
        | none => .error CKR_FUNCTION_FAILED
        | some block => .ok { st1 with buf := scratch_read padlen block }
      else if st1.sign.padding = RSA_NO_PADDING then
        match ext.padNone padlen st1.buf with
        | none => .error CKR_FUNCTION_FAILED
        | some block => .ok { st1 with buf := scratch_read padlen block }
      else .ok st1
    match stage2 with
    | .error rv => { rv := rv, st := st1, out := none, sig_len := sigCap }
    | .ok st2 =>
      -- lines 263-272: sign with the hardware
      let signed := ext.pivSign st2.buf st2.sign.algorithm st2.sign.piv_key
      if signed.1 ≠ YKPIV_OK then
        { rv := yrc_to_rv signed.1, st := st2, out := none, sig_len := sigCap }
      else
        -- lines 276-293: strip DER on EC, then copy to the caller buffer
        if st2.sign.algorithm = YKPIV_ALGO_ECCP256 ∨
           st2.sign.algorithm = YKPIV_ALGO_ECCP384 then
          let stripped := ext.stripDER signed.2 st2.out_len
          let siglen := st2.out_len
          if stripped.1 = CKR_OK then
            if siglen > sigCap then
              { rv := CKR_BUFFER_TOO_SMALL, st := st2, out := none, sig_len := sigCap }
            else
              { rv := CKR_OK, st := st2, out := some (scratch_read siglen stripped.2),
                sig_len := siglen }
          else { rv := stripped.1, st := st2, out := none, sig_len := sigCap }
        else
          let siglen := signed.2.length
          if siglen > sigCap then
            { rv := CKR_BUFFER_TOO_SMALL, st := st2, out := none, sig_len := sigCap }
          else
            { rv := CKR_OK, st := st2, out := some signed.2, sig_len := siglen }

/-- Result of a cleanup call: the status, the new state, and whether the
digest context / the raw verify context were actually released by this
call (used to state that nothing is released twice). -/
structure CleanupResult where
  rv : CK_RV
  st : OpInfo
  freed_md : Bool
  freed_pkey : Bool
  deriving Repr

/-- `sign_mechanism_cleanup` (mechanisms.c lines 296-304). -/
def sign_mechanism_cleanup (st : OpInfo) : CleanupResult :=
  let freed := st.md_ctx.isSome
  { rv := CKR_OK, st := { st with md_ctx := none, buf := [] },
    freed_md := freed, freed_pkey := false }

/-- `verify_mechanism_cleanup` (mechanisms.c lines 306-317): the digest
context is destroyed when present, otherwise the raw verify context is
freed when present; the verify-context pointer is nulled afterwards in
both cases, and the buffered length is reset. -/
def verify_mechanism_cleanup (st : OpInfo) : CleanupResult :=
  let freed_md := st.md_ctx.isSome
  let freed_pkey := st.md_ctx.isNone && st.verify.pkey_ctx
  { rv := CKR_OK,
    st := { st with md_ctx := none, buf := [],
                    verify := { st.verify with pkey_ctx := false } },
    freed_md := freed_md, freed_pkey := freed_pkey }

/-- `verify_mechanism_init` (mechanisms.c lines 319-487).  Mirrors the
sign init but builds a verification context: a combined hash-and-verify
context for hashed mechanisms or EdDSA, else a raw public-key verify
context; PSS parameters are validated after the padding is installed on
the context. -/
def verify_mechanism_init (ext : LibExt) (st0 : OpInfo) (key : Option PKey)
    (mech : SignMech) : CK_RV × OpInfo :=
  match key with
  | none => (CKR_KEY_TYPE_INCONSISTENT, st0)
  | some key =>
    let st1 := { st0 with
      md_ctx := none,
      mechanism := mech.mechanism,
      verify := { st0.verify with pkey_ctx := false } }
    let is_eddsa := mech.mechanism = CKM_EDDSA
    match implied_md mech.mechanism with
    | none => (CKR_MECHANISM_INVALID, st1)
    | some md =>
      let rsa := key.isRSA
      -- lines 450-481: install padding and PSS parameters on the context
      let afterCtx : OpInfo → Option PssParams → CK_RV × OpInfo := fun st pss =>
        let fin : OpInfo → CK_RV × OpInfo := fun st =>
          (CKR_OK, { st with out_len := 0, buf := [] })
        if st.verify.padding ≠ 0 then
          if ext.setPaddingOk = false then (CKR_FUNCTION_FAILED, st)
          else
            match pss with
            | none => fin st
            | some p =>
              if EVP_MD_by_mechanism p.hashAlg = none then (CKR_ARGUMENTS_BAD, st)
              else if EVP_MD_by_mechanism p.mgf = none then (CKR_ARGUMENTS_BAD, st)
              else if md ≠ none ∧ md ≠ EVP_MD_by_mechanism p.hashAlg then
                (CKR_ARGUMENTS_BAD, st)
              else if ext.setSigMdOk = false then (CKR_FUNCTION_FAILED, st)
              else if ext.setMgf1Ok = false then (CKR_FUNCTION_FAILED, st)
              else if ext.setSaltlenOk = false then (CKR_FUNCTION_FAILED, st)
              else fin st
        else fin st
      -- lines 428-448: build the combined or raw verification context
      let mkCtx : OpInfo → Option PssParams → CK_RV × OpInfo := fun st pss =>
        if md ≠ none ∨ is_eddsa then
          if ext.createOk = false then (CKR_FUNCTION_FAILED, st)
          else
            let st := { st with md_ctx := some ⟨md, []⟩ }
            if ext.digestVerifyInitOk = false then (CKR_FUNCTION_FAILED, st)
            else afterCtx { st with verify := { st.verify with pkey_ctx := true } } pss
        else
          if ext.pkeyCtxNewOk = false then (CKR_FUNCTION_FAILED, st)
          else
            let st := { st with verify := { st.verify with pkey_ctx := true } }
            if ext.verifyInitOk = false then (CKR_FUNCTION_FAILED, st)
            else afterCtx st pss
      -- lines 380-426: the second switch, resolving padding and PSS params
      if mech.mechanism = CKM_RSA_X_509 then
        if rsa = false then (CKR_KEY_TYPE_INCONSISTENT, st1)
        else mkCtx { st1 with verify := { st1.verify with padding := RSA_NO_PADDING } } none
      else if is_pkcs1_sign_mech mech.mechanism then
        if rsa = false then (CKR_KEY_TYPE_INCONSISTENT, st1)
        else mkCtx { st1 with verify := { st1.verify with padding := RSA_PKCS1_PADDING } } none
      else if is_pss_sign_mech mech.mechanism then
        if rsa = false then (CKR_KEY_TYPE_INCONSISTENT, st1)
        else
          match mech.pParameter with
          | none => (CKR_MECHANISM_PARAM_INVALID, st1)
          | some p =>
            if mech.ulParameterLen ≠ sizeof_CK_RSA_PKCS_PSS_PARAMS then
              (CKR_MECHANISM_PARAM_INVALID, st1)
            else
              mkCtx { st1 with verify := { st1.verify with padding := RSA_PKCS1_PSS_PADDING } }
                (some p)
      else
        if rsa = true then (CKR_KEY_TYPE_INCONSISTENT, st1)
        else mkCtx { st1 with verify := { st1.verify with padding := 0 } } none

/-- Results of the external verification primitives invoked by
`verify_mechanism_final`.  Each `Rc` field is the `int` return value of
the corresponding OpenSSL call (positive success, `0` mismatch,
negative internal error). -/
structure VerifyExt where
  /-- `EVP_DigestVerify` (one-shot, EdDSA path), as a function of the
  signature and the buffered message. -/
  digestVerifyRc : List Nat → List Nat → Int
  /-- `do_apply_DER_encoding_to_ECSIG`: status plus the re-encoded
  signature. -/
  applyDER : List Nat → CK_RV × List Nat
  /-- `EVP_DigestVerifyFinal` as a function of the signature. -/
  digestVerifyFinalRc : List Nat → Int
  /-- `EVP_PKEY_verify` as a function of the signature and the buffered
  data. -/
  pkeyVerifyRc : List Nat → List Nat → Int

/-- `verify_mechanism_final` (mechanisms.c lines 489-534), assuming a
modern OpenSSL build (the EdDSA branch is compiled in).  The session
state is not mutated; only the status is produced. -/
def verify_mechanism_final (ext : VerifyExt) (st : OpInfo) (sig : List Nat) : CK_RV :=
  if st.mechanism = CKM_EDDSA then
    let rc := ext.digestVerifyRc sig st.buf
    if rc ≤ 0 then
      if rc < 0 then CKR_FUNCTION_FAILED else CKR_SIGNATURE_INVALID
    else CKR_OK
  else
    -- lines 503-517: re-encode a raw fixed-width EC signature into DER
    let derStep : Except CK_RV (List Nat) :=
      if st.verify.padding = 0 then
        if sig.length > 1024 then .error CKR_FUNCTION_FAILED
        else
          let applied := ext.applyDER sig
          if applied.1 = CKR_OK then .ok applied.2 else .error applied.1
      else .ok sig
    match derStep with
    | .error rv => rv
    | .ok sig' =>
      if st.md_ctx.isSome then
        let rc := ext.digestVerifyFinalRc sig'
        if rc ≤ 0 then
          if rc < 0 then CKR_FUNCTION_FAILED else CKR_SIGNATURE_INVALID
        else CKR_OK
      else
        let rc := ext.pkeyVerifyRc sig' st.buf
        if rc ≤ 0 then
          if rc < 0 then CKR_FUNCTION_FAILED else CKR_SIGNATURE_INVALID
        else CKR_OK

/-- The allow-list of key-pair generation mechanisms
(mechanisms.c lines 41-47; the deprecated `CKM_ECDSA_KEY_PAIR_GEN` entry
is commented out in the source). -/
def generation_mechanisms : List Nat :=
  [CKM_RSA_PKCS_KEY_PAIR_GEN, CKM_EC_KEY_PAIR_GEN,
   CKM_EC_EDWARDS_KEY_PAIR_GEN, CKM_EC_MONTGOMERY_KEY_PAIR_GEN]

/-- `check_generation_mechanism` (mechanisms.c lines 536-560).  The
token mechanism-info query is passed in as a function returning its
status. -/
def check_generation_mechanism (get_token_mechanism_info : Nat → CK_RV) (m : Nat) :
    CK_RV :=
  if ¬ (m ∈ generation_mechanisms) then CKR_MECHANISM_INVALID
  else if get_token_mechanism_info m ≠ CKR_OK then CKR_MECHANISM_INVALID
  else CKR_OK

/-- `CK_RSA_PKCS_OAEP_PARAMS`: declared hash, MGF, source type and
optional label data. -/
structure OaepParams where
  hashAlg : Nat
  mgf : Nat
  source : Nat
  pSourceData : Option (List Nat)
  deriving DecidableEq, Repr

/-- The mechanism argument of `decrypt_mechanism_init`, with the
parameter block interpreted as `CK_RSA_PKCS_OAEP_PARAMS`. -/
structure DecMech where
  mechanism : Nat
  pParameter : Option OaepParams
  ulParameterLen : Nat
  deriving DecidableEq, Repr

/-- External operations invoked by the decrypt protocol. -/
structure DecExt where
  /-- whether `malloc` of the OAEP label copy succeeds. -/
  mallocOk : Bool
  /-- `ykpiv_decipher_data input algorithm key`: status plus the raw
  decrypted block (written back into the session buffer). -/
  pivDecipher : List Nat → Nat → Nat → ykpiv_rc × List Nat
  /-- `RSA_padding_check_PKCS1_type_2 from num`: recovered length
  (negative on failure) plus the recovered bytes. -/
  padCheck2 : List Nat → Nat → Int × List Nat
  /-- `RSA_padding_check_PKCS1_OAEP_mgf1 from num label oaep_md mgf1_md`. -/
  padCheckOaep : List Nat → Nat → Option (List Nat) → Option MD → Option MD →
    Int × List Nat

/-- `decrypt_mechanism_init` (mechanisms.c lines 684-729). -/
def decrypt_mechanism_init (ext : DecExt) (st0 : OpInfo) (key : PKey)
    (mech : DecMech) : CK_RV × OpInfo :=
  if key.isRSA = false then (CKR_KEY_TYPE_INCONSISTENT, st0)
  else
    let st := { st0 with
      mechanism := mech.mechanism,
      encrypt := { st0.encrypt with
        algorithm := key.algorithm,
        key := some key,
        oaep_label := none } }
    if mech.mechanism = CKM_RSA_X_509 then
      (CKR_OK, { st with encrypt := { st.encrypt with padding := RSA_NO_PADDING } })
    else if mech.mechanism = CKM_RSA_PKCS then
      (CKR_OK, { st with encrypt := { st.encrypt with padding := RSA_PKCS1_PADDING } })
    else if mech.mechanism = CKM_RSA_PKCS_OAEP then
      let st := { st with encrypt := { st.encrypt with padding := RSA_PKCS1_OAEP_PADDING } }
      match mech.pParameter with
      | none => (CKR_MECHANISM_PARAM_INVALID, st)
      | some oaep =>
        if mech.ulParameterLen ≠ sizeof_CK_RSA_PKCS_OAEP_PARAMS then
          (CKR_MECHANISM_PARAM_INVALID, st)
        else
          let st := { st with encrypt := { st.encrypt with
            oaep_md := EVP_MD_by_mechanism oaep.hashAlg,
            mgf1_md := EVP_MD_by_mechanism oaep.mgf } }
          match oaep.pSourceData with
          | some label =>
            if oaep.source = CKZ_DATA_SPECIFIED then
              if ext.mallocOk = false then (CKR_HOST_MEMORY, st)
              else
                (CKR_OK, { st with encrypt := { st.encrypt with oaep_label := some label } })
            else (CKR_OK, st)
          | none => (CKR_OK, st)
    else (CKR_MECHANISM_INVALID, st)

/-- The unpadding step of `decrypt_mechanism_final` (lines 749-761),
applied to the state whose buffer already holds the raw decrypted block:
the recovered length (`cb_len`) and bytes, or `none` for the
unknown-padding branch. -/
def decrypt_padding_check (ext : DecExt) (st : OpInfo) (key_len : Nat) :
    Option (Int × List Nat) :=
  if st.encrypt.padding = RSA_PKCS1_PADDING then
    some (ext.padCheck2 (st.buf.drop 1) (key_len / 8))
  else if st.encrypt.padding = RSA_PKCS1_OAEP_PADDING then
    some (ext.padCheckOaep (st.buf.drop 1) (key_len / 8)
      st.encrypt.oaep_label st.encrypt.oaep_md st.encrypt.mgf1_md)
  else if st.encrypt.padding = RSA_NO_PADDING then
    some ((st.buf.length : Int), st.buf)
  else none

/-- Result of `decrypt_mechanism_final`: status, state, the reported
output length (`*data_len`; equal to the caller capacity when
untouched), the bytes copied to the caller, and whether the owned OAEP
label was released by this call. -/
structure DecResult where
  rv : CK_RV
  st : OpInfo
  data_len : Nat
  out : Option (List Nat)
  freed_label : Bool
  deriving Repr

/-- `decrypt_mechanism_final` (mechanisms.c lines 731-781).  `dataCap` is
the caller's declared capacity (`*data_len` on entry); the hardware
writes the raw decrypted block back into the session buffer. -/
def decrypt_mechanism_final (ext : DecExt) (st0 : OpInfo) (dataCap key_len : Nat) :
    DecResult :=
  let deciphered := ext.pivDecipher st0.buf st0.encrypt.algorithm st0.encrypt.piv_key
  if deciphered.1 ≠ YKPIV_OK then
    if deciphered.1 = YKPIV_AUTHENTICATION_ERROR then
      { rv := CKR_USER_NOT_LOGGED_IN, st := st0, data_len := dataCap, out := none,
        freed_label := false }
    else
      { rv := CKR_DEVICE_ERROR, st := st0, data_len := dataCap, out := none,
        freed_label := false }
  else
    let st := { st0 with buf := deciphered.2 }
    match decrypt_padding_check ext st key_len with
    | none =>
      { rv := CKR_FUNCTION_FAILED, st := st, data_len := dataCap, out := none,
        freed_label := false }
    | some checked =>
      if checked.1 ≤ 0 then
        { rv := CKR_FUNCTION_FAILED, st := st, data_len := 0, out := none,
          freed_label := false }
      else if checked.1.toNat > dataCap then
        { rv := CKR_BUFFER_TOO_SMALL, st := st, data_len := 0, out := none,
          freed_label := false }
      else
        { rv := CKR_OK,
          st := { st with encrypt := { st.encrypt with oaep_label := none } },
          data_len := checked.1.toNat,
          out := some (checked.2.take checked.1.toNat),
          freed_label := st.encrypt.oaep_label.isSome }

/-- A zeroed operation context, for concrete instantiations. -/
def opInfo0 : OpInfo :=
  { mechanism := 0, md_ctx := none, buf := [], out_len := 0,
    sign := ⟨false, 0, 0, 0, none, none, 0⟩,
    verify := ⟨false, 0⟩,
    encrypt := ⟨0, 0, 0, none, none, none, none⟩ }

/-! ## Theorems -/

/-- C3: on every update call that buffers data (no running hash
consuming it, i.e. no digest context or the EdDSA mechanism), an input
that would push the buffered length beyond the 1024-byte capacity fails
with `CKR_DATA_LEN_RANGE` and leaves the state unchanged; and every
update call preserves the invariant that the buffered length does not
exceed the capacity. -/
theorem update_buffer_bounded (ext : LibExt) (st : OpInfo) (input : List Nat) :
    ((st.md_ctx = none ∨ st.mechanism = CKM_EDDSA) →
      st.buf.length + input.length > OP_INFO_BUF_SIZE →
      (digest_mechanism_update ext st input).1 = CKR_DATA_LEN_RANGE ∧
      (digest_mechanism_update ext st input).2 = st) ∧
    (st.buf.length ≤ OP_INFO_BUF_SIZE →
      (digest_mechanism_update ext st input).2.buf.length ≤ OP_INFO_BUF_SIZE) := by
  constructor
  · intro h hov
    have hcond : ¬ (st.md_ctx.isSome = true ∧ st.mechanism ≠ CKM_EDDSA) := by
      rcases h with h | h <;> simp [h]
    simp [digest_mechanism_update, if_neg hcond, if_pos hov]
  · intro hle
    by_cases hcond : st.md_ctx.isSome = true ∧ st.mechanism ≠ CKM_EDDSA
    · simp only [digest_mechanism_update, if_pos hcond]
      by_cases hupd : ext.digestUpdateOk = false <;> simp [hupd, hle]
    · simp only [digest_mechanism_update, if_neg hcond]
      by_cases hov : st.buf.length + input.length > OP_INFO_BUF_SIZE
      · simpa [hov] using hle
      · simp only [if_neg hov]
        simpa using Nat.le_of_not_lt hov

set_option maxRecDepth 8192 in
/-- C3 witness: a full 1024-byte buffer rejects one more byte without
mutation. -/
theorem update_buffer_bounded_witness :
    (digest_mechanism_update extOk { opInfo0 with buf := List.replicate 1024 0 } [1]).1 =
      CKR_DATA_LEN_RANGE ∧
    (digest_mechanism_update extOk { opInfo0 with buf := List.replicate 1024 0 } [1]).2 =
      { opInfo0 with buf := List.replicate 1024 0 } := by
  exact (update_buffer_bounded extOk { opInfo0 with buf := List.replicate 1024 0 } [1]).1
    (Or.inl rfl) (by decide)

/-- C9: with the EdDSA mechanism active, every update appends to the
bounded operation buffer, never touching the open digest/verify
context; an input that would exceed 1024 total bytes fails with
`CKR_DATA_LEN_RANGE` and leaves the state unchanged. -/
theorem eddsa_update_buffers_only (ext : LibExt) (st : OpInfo) (input : List Nat)
    (h : st.mechanism = CKM_EDDSA) :
    (st.buf.length + input.length ≤ OP_INFO_BUF_SIZE →
      digest_mechanism_update ext st input = (CKR_OK, { st with buf := st.buf ++ input })) ∧
    (st.buf.length + input.length > OP_INFO_BUF_SIZE →
      digest_mechanism_update ext st input = (CKR_DATA_LEN_RANGE, st)) ∧
    (digest_mechanism_update ext st input).2.md_ctx = st.md_ctx := by
  have hcond : ¬ (st.md_ctx.isSome = true ∧ st.mechanism ≠ CKM_EDDSA) := by simp [h]
  refine ⟨fun hle => ?_, fun hov => ?_, ?_⟩
  · simp only [digest_mechanism_update, if_neg hcond, if_neg (Nat.not_lt.mpr hle)]
  · simp only [digest_mechanism_update, if_neg hcond, if_pos hov]
  · by_cases hov : st.buf.length + input.length > OP_INFO_BUF_SIZE <;>
      simp [digest_mechanism_update, if_neg hcond, hov]

/-- C9 witness: an EdDSA operation with an open verify context buffers
two bytes and rejects a 1025th byte. -/
theorem eddsa_update_buffers_only_witness :
    digest_mechanism_update extOk
        { opInfo0 with mechanism := CKM_EDDSA, md_ctx := some ⟨none, []⟩ } [7, 8] =
      (CKR_OK,
        { opInfo0 with
          mechanism := CKM_EDDSA,
          md_ctx := some ⟨none, []⟩,
          buf := [7, 8] }) ∧
    (digest_mechanism_update extOk
        { opInfo0 with mechanism := CKM_EDDSA, md_ctx := some ⟨none, []⟩ }
        [7, 8]).2.md_ctx = some ⟨none, []⟩ := by
  have h := eddsa_update_buffers_only extOk
    { opInfo0 with mechanism := CKM_EDDSA, md_ctx := some ⟨none, []⟩ } [7, 8] rfl
  exact ⟨h.1 (by decide), by rw [h.2.2]⟩

/-- C8: `sign_mechanism_cleanup` and `verify_mechanism_cleanup` are
idempotent: after one call the digest context is null and the buffered
length zero (the verify cleanup additionally nulls the raw verify
context pointer), and a second call succeeds, changes nothing and
releases no resource; the verify cleanup releases the raw verify
context exactly when no combined hash context is present. -/
theorem cleanup_idempotent (st : OpInfo) :
    ((sign_mechanism_cleanup st).rv = CKR_OK ∧
     (sign_mechanism_cleanup st).st.md_ctx = none ∧
     (sign_mechanism_cleanup st).st.buf = [] ∧
     sign_mechanism_cleanup ((sign_mechanism_cleanup st).st) =
       { rv := CKR_OK, st := (sign_mechanism_cleanup st).st,
         freed_md := false, freed_pkey := false }) ∧
    ((verify_mechanism_cleanup st).rv = CKR_OK ∧
     (verify_mechanism_cleanup st).st.md_ctx = none ∧
     (verify_mechanism_cleanup st).st.verify.pkey_ctx = false ∧
     (verify_mechanism_cleanup st).st.buf = [] ∧
     verify_mechanism_cleanup ((verify_mechanism_cleanup st).st) =
       { rv := CKR_OK, st := (verify_mechanism_cleanup st).st,
         freed_md := false, freed_pkey := false } ∧
     ((verify_mechanism_cleanup st).freed_pkey = true ↔
       st.md_ctx = none ∧ st.verify.pkey_ctx = true)) := by
  obtain ⟨mech, mdctx, buf, olen, sgn, ⟨pctx, vpad⟩, enc⟩ := st
  refine ⟨⟨rfl, rfl, rfl, rfl⟩, rfl, rfl, rfl, rfl, rfl, ?_⟩
  cases mdctx <;> cases pctx <;> simp [verify_mechanism_cleanup]

/-- C8 witness: both cleanups on a state with an open digest context,
a live raw verify context and buffered bytes. -/
theorem cleanup_idempotent_witness :
    (sign_mechanism_cleanup
        { opInfo0 with
          md_ctx := some ⟨some .sha256, [1]⟩,
          buf := [4, 5],
          verify := ⟨true, 1⟩ }).st.md_ctx = none ∧
    (verify_mechanism_cleanup
        { opInfo0 with
          md_ctx := some ⟨some .sha256, [1]⟩,
          buf := [4, 5],
          verify := ⟨true, 1⟩ }).freed_pkey = false := by
  have h := cleanup_idempotent
    { opInfo0 with
      md_ctx := some ⟨some .sha256, [1]⟩,
      buf := [4, 5],
      verify := ⟨true, 1⟩ }
  refine ⟨h.1.2.1, ?_⟩
  have h2 := h.2.2.2.2.2.2
  revert h2
  decide

/-- C7 counterexample: the deprecated ECDSA key-pair-generation
identifier is, per the PKCS#11 header, the same numeric value as
`CKM_EC_KEY_PAIR_GEN`; with a token that reports support,
`check_generation_mechanism` accepts it rather than returning
`CKR_MECHANISM_INVALID`. -/
theorem check_generation_deprecated_alias_accepted :
    check_generation_mechanism (fun _ => CKR_OK) CKM_ECDSA_KEY_PAIR_GEN = CKR_OK ∧
    CKM_ECDSA_KEY_PAIR_GEN = CKM_EC_KEY_PAIR_GEN ∧
    CKR_OK ≠ CKR_MECHANISM_INVALID := by decide

/-- C7 (amended): `check_generation_mechanism` succeeds exactly when the
identifier is in the fixed allow-list and the token mechanism-info query
succeeds for it; every identifier outside the allow-list (and every
allow-listed one the token rejects) yields `CKR_MECHANISM_INVALID`.  The
deprecated ECDSA key-pair-generation identifier is numerically the EC
key-pair-generation identifier and is therefore inside the allow-list,
not rejected. -/
theorem check_generation_mechanism_spec (tok : Nat → CK_RV) (m : Nat) :
    (check_generation_mechanism tok m = CKR_OK ↔
      m ∈ generation_mechanisms ∧ tok m = CKR_OK) ∧
    (check_generation_mechanism tok m = CKR_OK ∨
      check_generation_mechanism tok m = CKR_MECHANISM_INVALID) := by
  unfold check_generation_mechanism
  by_cases h : m ∈ generation_mechanisms
  · by_cases h2 : tok m = CKR_OK <;> simp [h, h2]
  · simp [h]

/-- C7 witness: RSA key-pair generation with a supporting token is
accepted. -/
theorem check_generation_mechanism_spec_witness :
    check_generation_mechanism (fun _ => CKR_OK) CKM_RSA_PKCS_KEY_PAIR_GEN = CKR_OK := by
  exact (check_generation_mechanism_spec (fun _ => CKR_OK) CKM_RSA_PKCS_KEY_PAIR_GEN).1.mpr
    ⟨by decide, rfl⟩

/-- C4: `verify_mechanism_final` maps a mismatch report (return value
zero) of the underlying verify primitive to `CKR_SIGNATURE_INVALID` and
an internal-error report (negative return value) to
`CKR_FUNCTION_FAILED`, on each of its three delegation branches
(one-shot EdDSA verify, combined digest-verify final, raw public-key
verify, the latter two with or without the DER re-encoding step). -/
theorem verify_final_distinguishes (ext : VerifyExt) (st : OpInfo) (sig : List Nat) :
    (st.mechanism = CKM_EDDSA →
      (ext.digestVerifyRc sig st.buf = 0 →
        verify_mechanism_final ext st sig = CKR_SIGNATURE_INVALID) ∧
      (ext.digestVerifyRc sig st.buf < 0 →
        verify_mechanism_final ext st sig = CKR_FUNCTION_FAILED)) ∧
    (st.mechanism ≠ CKM_EDDSA → st.verify.padding ≠ 0 →
      (st.md_ctx.isSome = true →
        (ext.digestVerifyFinalRc sig = 0 →
          verify_mechanism_final ext st sig = CKR_SIGNATURE_INVALID) ∧
        (ext.digestVerifyFinalRc sig < 0 →
          verify_mechanism_final ext st sig = CKR_FUNCTION_FAILED)) ∧
      (st.md_ctx = none →
        (ext.pkeyVerifyRc sig st.buf = 0 →
          verify_mechanism_final ext st sig = CKR_SIGNATURE_INVALID) ∧
        (ext.pkeyVerifyRc sig st.buf < 0 →
          verify_mechanism_final ext st sig = CKR_FUNCTION_FAILED))) ∧
    (st.mechanism ≠ CKM_EDDSA → st.verify.padding = 0 → sig.length ≤ 1024 →
      ∀ sig', ext.applyDER sig = (CKR_OK, sig') →
      (st.md_ctx.isSome = true →
        (ext.digestVerifyFinalRc sig' = 0 →
          verify_mechanism_final ext st sig = CKR_SIGNATURE_INVALID) ∧
        (ext.digestVerifyFinalRc sig' < 0 →
          verify_mechanism_final ext st sig = CKR_FUNCTION_FAILED)) ∧
      (st.md_ctx = none →
        (ext.pkeyVerifyRc sig' st.buf = 0 →
          verify_mechanism_final ext st sig = CKR_SIGNATURE_INVALID) ∧
        (ext.pkeyVerifyRc sig' st.buf < 0 →
          verify_mechanism_final ext st sig = CKR_FUNCTION_FAILED))) := by
  refine ⟨fun hm => ⟨fun hrc => ?_, fun hrc => ?_⟩,
          fun hm hpad => ⟨fun hmd => ⟨fun hrc => ?_, fun hrc => ?_⟩,
                          fun hmd => ⟨fun hrc => ?_, fun hrc => ?_⟩⟩,
          fun hm hpad hlen sig' happly => ?_⟩
  case refine_7 =>
    refine ⟨fun hmd => ⟨fun hrc => ?_, fun hrc => ?_⟩,
            fun hmd => ⟨fun hrc => ?_, fun hrc => ?_⟩⟩ <;>
      (simp_all [verify_mechanism_final,
         show ∀ x : Int, x < 0 → x ≤ 0 from fun x h => le_of_lt h]
       rw [if_neg (not_lt.mpr hlen)]
       simp_all [show ∀ x : Int, x < 0 → x ≤ 0 from fun x h => le_of_lt h])
  all_goals
    simp_all [verify_mechanism_final,
      show ∀ x : Int, x < 0 → x ≤ 0 from fun x h => le_of_lt h]

/-- C4 concrete library behaviors used by the witness. -/
def verExtA : VerifyExt :=
  ⟨fun _ _ => 0, fun l => (CKR_OK, l), fun _ => 0, fun _ _ => (-1 : Int)⟩

/-- C4 witness: an EdDSA mismatch yields `CKR_SIGNATURE_INVALID`; an
internal failure of the raw verify primitive yields
`CKR_FUNCTION_FAILED`. -/
theorem verify_final_distinguishes_witness :
    verify_mechanism_final verExtA { opInfo0 with mechanism := CKM_EDDSA } [1] =
      CKR_SIGNATURE_INVALID ∧
    verify_mechanism_final verExtA
        { opInfo0 with mechanism := CKM_RSA_PKCS, verify := ⟨true, RSA_PKCS1_PADDING⟩ }
        [1] = CKR_FUNCTION_FAILED := by
  refine ⟨((verify_final_distinguishes verExtA _ [1]).1 rfl).1 rfl, ?_⟩
  exact (((verify_final_distinguishes verExtA _ [1]).2.1 (by decide) (by decide)).2
    rfl).2 (by decide)

/-- C5: a failing hardware decipher step maps an authentication-required
status to `CKR_USER_NOT_LOGGED_IN` and any other failing hardware status
to `CKR_DEVICE_ERROR`. -/
theorem decrypt_final_hw_error_mapping (ext : DecExt) (st : OpInfo)
    (dataCap key_len : Nat) :
    ((ext.pivDecipher st.buf st.encrypt.algorithm st.encrypt.piv_key).1 =
        YKPIV_AUTHENTICATION_ERROR →
      (decrypt_mechanism_final ext st dataCap key_len).rv = CKR_USER_NOT_LOGGED_IN) ∧
    ((ext.pivDecipher st.buf st.encrypt.algorithm st.encrypt.piv_key).1 ≠ YKPIV_OK →
      (ext.pivDecipher st.buf st.encrypt.algorithm st.encrypt.piv_key).1 ≠
        YKPIV_AUTHENTICATION_ERROR →
      (decrypt_mechanism_final ext st dataCap key_len).rv = CKR_DEVICE_ERROR) := by
  constructor
  · intro h
    simp [decrypt_mechanism_final, h]
  · intro h1 h2
    simp [decrypt_mechanism_final, h1, h2]

/-- Hardware behavior reporting an authentication-required failure. -/
def decExtAuth : DecExt :=
  ⟨true, fun _ _ _ => (YKPIV_AUTHENTICATION_ERROR, []),
   fun _ _ => ((-1 : Int), []), fun _ _ _ _ _ => ((-1 : Int), [])⟩

/-- Hardware behavior reporting a non-authentication failure. -/
def decExtDev : DecExt :=
  ⟨true, fun _ _ _ => (YKPIV_PCSC_ERROR, []),
   fun _ _ => ((-1 : Int), []), fun _ _ _ _ _ => ((-1 : Int), [])⟩

/-- C5 witness: the two hardware failure statuses at a concrete state. -/
theorem decrypt_final_hw_error_mapping_witness :
    (decrypt_mechanism_final decExtAuth opInfo0 0 2048).rv = CKR_USER_NOT_LOGGED_IN ∧
    (decrypt_mechanism_final decExtDev opInfo0 0 2048).rv = CKR_DEVICE_ERROR := by
  exact ⟨(decrypt_final_hw_error_mapping decExtAuth opInfo0 0 2048).1 rfl,
         (decrypt_final_hw_error_mapping decExtDev opInfo0 0 2048).2 (by decide) (by decide)⟩

/-- C6: after a successful hardware decipher, a failed unpadding check
(`cb_len ≤ 0`) yields `CKR_FUNCTION_FAILED` with reported output length
zero, and a recovered output larger than the caller capacity yields
`CKR_BUFFER_TOO_SMALL` with reported output length zero. -/
theorem decrypt_final_unpad_errors (ext : DecExt) (st0 : OpInfo)
    (dataCap key_len : Nat)
    (hok : (ext.pivDecipher st0.buf st0.encrypt.algorithm st0.encrypt.piv_key).1 =
      YKPIV_OK)
    (cb : Int) (dec : List Nat)
    (hpc : decrypt_padding_check ext
      { st0 with buf := (ext.pivDecipher st0.buf st0.encrypt.algorithm st0.encrypt.piv_key).2 }
      key_len = some (cb, dec)) :
    (cb ≤ 0 →
      (decrypt_mechanism_final ext st0 dataCap key_len).rv = CKR_FUNCTION_FAILED ∧
      (decrypt_mechanism_final ext st0 dataCap key_len).data_len = 0) ∧
    (0 < cb → cb.toNat > dataCap →
      (decrypt_mechanism_final ext st0 dataCap key_len).rv = CKR_BUFFER_TOO_SMALL ∧
      (decrypt_mechanism_final ext st0 dataCap key_len).data_len = 0) := by
  constructor
  · intro hcb
    simp [decrypt_mechanism_final, hok, hpc, hcb]
  · intro hcb hcap
    simp [decrypt_mechanism_final, hok, hpc, not_le.mpr hcb, hcap]

/-- A decrypt state whose resolved padding is PKCS#1 type 2. -/
def stDec : OpInfo :=
  { opInfo0 with encrypt := { opInfo0.encrypt with padding := RSA_PKCS1_PADDING } }

/-- Successful decipher whose PKCS#1 unpadding check fails. -/
def decExtB : DecExt :=
  ⟨true, fun _ _ _ => (YKPIV_OK, List.replicate 10 1),
   fun _ _ => ((-1 : Int), []), fun _ _ _ _ _ => ((-1 : Int), [])⟩

/-- Successful decipher recovering five bytes. -/
def decExtC : DecExt :=
  ⟨true, fun _ _ _ => (YKPIV_OK, List.replicate 10 1),
   fun _ _ => ((5 : Int), List.replicate 5 2), fun _ _ _ _ _ => ((-1 : Int), [])⟩

/-- C6 witness: a failed padding check and an oversized recovered
output, both with zero reported length. -/
theorem decrypt_final_unpad_errors_witness :
    (decrypt_mechanism_final decExtB stDec 3 2048).rv = CKR_FUNCTION_FAILED ∧
    (decrypt_mechanism_final decExtB stDec 3 2048).data_len = 0 ∧
    (decrypt_mechanism_final decExtC stDec 3 2048).rv = CKR_BUFFER_TOO_SMALL ∧
    (decrypt_mechanism_final decExtC stDec 3 2048).data_len = 0 := by
  have h1 := decrypt_final_unpad_errors decExtB stDec 3 2048 rfl (-1) [] (by decide)
  have h2 := decrypt_final_unpad_errors decExtC stDec 3 2048 rfl 5
    (List.replicate 5 2) (by decide)
  exact ⟨(h1.1 (by decide)).1, (h1.1 (by decide)).2,
         (h2.2 (by decide) (by decide)).1, (h2.2 (by decide) (by decide)).2⟩

/-- C10: `decrypt_mechanism_final` releases the owned OAEP label and
nulls its pointer exactly on the success path; on every failure path
(hardware failure, padding-check failure, undersized caller buffer,
unknown padding) the label field is left unchanged and nothing is
freed. -/
theorem decrypt_label_freed_only_on_success (ext : DecExt) (st : OpInfo)
    (dataCap key_len : Nat) (lbl : List Nat)
    (h : st.encrypt.oaep_label = some lbl) :
    ((decrypt_mechanism_final ext st dataCap key_len).rv ≠ CKR_OK →
      (decrypt_mechanism_final ext st dataCap key_len).st.encrypt.oaep_label = some lbl ∧
      (decrypt_mechanism_final ext st dataCap key_len).freed_label = false) ∧
    ((decrypt_mechanism_final ext st dataCap key_len).rv = CKR_OK →
      (decrypt_mechanism_final ext st dataCap key_len).st.encrypt.oaep_label = none ∧
      (decrypt_mechanism_final ext st dataCap key_len).freed_label = true) := by
  by_cases h1 : (ext.pivDecipher st.buf st.encrypt.algorithm st.encrypt.piv_key).1 =
      YKPIV_OK
  case neg =>
    by_cases h2 : (ext.pivDecipher st.buf st.encrypt.algorithm st.encrypt.piv_key).1 =
        YKPIV_AUTHENTICATION_ERROR <;>
      simp [decrypt_mechanism_final, h1, h2, h]
  case pos =>
    rcases hpc : decrypt_padding_check ext
        { st with buf := (ext.pivDecipher st.buf st.encrypt.algorithm st.encrypt.piv_key).2 }
        key_len with _ | ⟨cb, dec⟩
    · simp [decrypt_mechanism_final, h1, hpc, h]
    · by_cases hcb : cb ≤ 0
      · simp [decrypt_mechanism_final, h1, hpc, hcb, h]
      · by_cases hcap : cb.toNat > dataCap <;>
          simp [decrypt_mechanism_final, h1, hpc, hcb, hcap, h]

/-- A decrypt state owning an OAEP label, with pass-through padding. -/
def stLbl : OpInfo :=
  { opInfo0 with encrypt := { opInfo0.encrypt with
      padding := RSA_NO_PADDING, oaep_label := some [9] } }

/-- Successful decipher recovering two raw bytes. -/
def decExtD : DecExt :=
  ⟨true, fun _ _ _ => (YKPIV_OK, [1, 2]),
   fun _ _ => ((-1 : Int), []), fun _ _ _ _ _ => ((-1 : Int), [])⟩

/-- C10 witness: the label survives a hardware failure untouched and is
released exactly once on success. -/
theorem decrypt_label_freed_only_on_success_witness :
    (decrypt_mechanism_final decExtD stLbl 4 2048).st.encrypt.oaep_label = none ∧
    (decrypt_mechanism_final decExtD stLbl 4 2048).freed_label = true ∧
    (decrypt_mechanism_final decExtAuth stLbl 4 2048).st.encrypt.oaep_label = some [9] ∧
    (decrypt_mechanism_final decExtAuth stLbl 4 2048).freed_label = false := by
  have h1 := decrypt_label_freed_only_on_success decExtD stLbl 4 2048 [9] rfl
  have h2 := decrypt_label_freed_only_on_success decExtAuth stLbl 4 2048 [9] rfl
  exact ⟨(h1.2 (by decide)).1, (h1.2 (by decide)).2,
         (h2.1 (by decide)).1, (h2.1 (by decide)).2⟩

/-- C2: for every PSS sign or verify mechanism with an RSA key, init
returns `CKR_MECHANISM_PARAM_INVALID` when the parameter block is absent
or mis-sized; `CKR_ARGUMENTS_BAD` when the declared hash or the declared
MGF identifier is unrecognized; and `CKR_ARGUMENTS_BAD` when the
mechanism's implied hash differs from the (recognized) hash declared in
the PSS parameters. -/
theorem pss_init_param_validation (m : Nat) (hm : is_pss_sign_mech m)
    (st st' : OpInfo) (key : PKey) (hk : key.isRSA = true)
    (p : Option PssParams) (plen : Nat) :
    ((p = none ∨ plen ≠ sizeof_CK_RSA_PKCS_PSS_PARAMS) →
      (sign_mechanism_init extOk st (some key) ⟨m, p, plen⟩).1 =
        CKR_MECHANISM_PARAM_INVALID ∧
      (verify_mechanism_init extOk st' (some key) ⟨m, p, plen⟩).1 =
        CKR_MECHANISM_PARAM_INVALID) ∧
    (∀ q : PssParams, p = some q → plen = sizeof_CK_RSA_PKCS_PSS_PARAMS →
      (EVP_MD_by_mechanism q.hashAlg = none →
        (sign_mechanism_init extOk st (some key) ⟨m, p, plen⟩).1 = CKR_ARGUMENTS_BAD ∧
        (verify_mechanism_init extOk st' (some key) ⟨m, p, plen⟩).1 = CKR_ARGUMENTS_BAD) ∧
      (EVP_MD_by_mechanism q.mgf = none →
        (sign_mechanism_init extOk st (some key) ⟨m, p, plen⟩).1 = CKR_ARGUMENTS_BAD ∧
        (verify_mechanism_init extOk st' (some key) ⟨m, p, plen⟩).1 = CKR_ARGUMENTS_BAD) ∧
      (∀ md0 h1, implied_md m = some (some md0) →
        EVP_MD_by_mechanism q.hashAlg = some h1 → h1 ≠ md0 →
        (sign_mechanism_init extOk st (some key) ⟨m, p, plen⟩).1 = CKR_ARGUMENTS_BAD ∧
        (verify_mechanism_init extOk st' (some key) ⟨m, p, plen⟩).1 = CKR_ARGUMENTS_BAD)) := by
  rcases hm with rfl | rfl | rfl | rfl | rfl
  -- CKM_RSA_PKCS_PSS: no implied hash, the conflict case is vacuous
  · constructor
    · intro hp
      rcases p with _ | q
      · exact ⟨by simp +decide [sign_mechanism_init, implied_md, hk],
               by simp +decide [verify_mechanism_init, implied_md, extOk, hk]⟩
      · have hplen : plen ≠ sizeof_CK_RSA_PKCS_PSS_PARAMS := by
          rcases hp with h | h
          · exact absurd h (by simp)
          · exact h
        exact ⟨by simp +decide [sign_mechanism_init, implied_md, hk, hplen],
               by simp +decide [verify_mechanism_init, implied_md, extOk, hk, hplen]⟩
    · rintro q rfl rfl
      refine ⟨fun hhash => ?_, fun hmgf => ?_, fun md0 h1 himp hdecl hne => ?_⟩
      · exact ⟨by simp +decide [sign_mechanism_init, implied_md, hk, hhash],
               by simp +decide [verify_mechanism_init, implied_md, extOk, hk, hhash]⟩
      · rcases hhash : EVP_MD_by_mechanism q.hashAlg with _ | h1
        · exact ⟨by simp +decide [sign_mechanism_init, implied_md, hk, hhash],
                 by simp +decide [verify_mechanism_init, implied_md, extOk, hk, hhash]⟩
        · exact ⟨by simp +decide [sign_mechanism_init, implied_md, hk, hhash, hmgf],
                 by simp +decide [verify_mechanism_init, implied_md, extOk, hk, hhash, hmgf]⟩
      · simp +decide [implied_md] at himp
  -- the four hashed PSS variants share one script
  all_goals
    constructor
    · intro hp
      rcases p with _ | q
      · exact ⟨by simp +decide [sign_mechanism_init, implied_md, hk],
               by simp +decide [verify_mechanism_init, implied_md, extOk, hk]⟩
      · have hplen : plen ≠ sizeof_CK_RSA_PKCS_PSS_PARAMS := by
          rcases hp with h | h
          · exact absurd h (by simp)
          · exact h
        exact ⟨by simp +decide [sign_mechanism_init, implied_md, hk, hplen],
               by simp +decide [verify_mechanism_init, implied_md, extOk, hk, hplen]⟩
    · rintro q rfl rfl
      refine ⟨fun hhash => ?_, fun hmgf => ?_, fun md0 h1 himp hdecl hne => ?_⟩
      · exact ⟨by simp +decide [sign_mechanism_init, implied_md, hk, hhash],
               by simp +decide [verify_mechanism_init, implied_md, extOk, hk, hhash]⟩
      · rcases hhash : EVP_MD_by_mechanism q.hashAlg with _ | h1
        · exact ⟨by simp +decide [sign_mechanism_init, implied_md, hk, hhash],
                 by simp +decide [verify_mechanism_init, implied_md, extOk, hk, hhash]⟩
        · exact ⟨by simp +decide [sign_mechanism_init, implied_md, hk, hhash, hmgf],
                 by simp +decide [verify_mechanism_init, implied_md, extOk, hk, hhash, hmgf]⟩
      · simp +decide [implied_md] at himp
        subst himp
        rcases hmgf2 : EVP_MD_by_mechanism q.mgf with _ | h2
        · exact ⟨by simp +decide [sign_mechanism_init, implied_md, hk, hdecl, hmgf2],
                 by simp +decide [verify_mechanism_init, implied_md, extOk, hk, hdecl, hmgf2]⟩
        · exact ⟨by simp +decide [sign_mechanism_init, implied_md, hk, hdecl, hmgf2, Ne.symm hne],
                 by simp +decide [verify_mechanism_init, implied_md, extOk, hk, hdecl, hmgf2, Ne.symm hne]⟩

/-- An RSA-2048 public key as the introspection interface reports it. -/
def key0 : PKey := ⟨true, 256, YKPIV_ALGO_RSA2048⟩

/-- C2 witness: the SHA256-PSS mechanism rejects a missing parameter
block and rejects parameters declaring SHA-1 against the implied
SHA-256. -/
theorem pss_init_param_validation_witness :
    (sign_mechanism_init extOk opInfo0 (some key0)
        ⟨CKM_SHA256_RSA_PKCS_PSS, none, 24⟩).1 = CKR_MECHANISM_PARAM_INVALID ∧
    (sign_mechanism_init extOk opInfo0 (some key0)
        ⟨CKM_SHA256_RSA_PKCS_PSS, some ⟨CKM_SHA_1, CKG_MGF1_SHA1, 20⟩, 24⟩).1 =
      CKR_ARGUMENTS_BAD ∧
    (verify_mechanism_init extOk opInfo0 (some key0)
        ⟨CKM_SHA256_RSA_PKCS_PSS, some ⟨CKM_SHA_1, CKG_MGF1_SHA1, 20⟩, 24⟩).1 =
      CKR_ARGUMENTS_BAD := by
  have ha := pss_init_param_validation CKM_SHA256_RSA_PKCS_PSS (by decide)
    opInfo0 opInfo0 key0 (by decide) none 24
  have hb := pss_init_param_validation CKM_SHA256_RSA_PKCS_PSS (by decide)
    opInfo0 opInfo0 key0 (by decide) (some ⟨CKM_SHA_1, CKG_MGF1_SHA1, 20⟩) 24
  refine ⟨(ha.1 (Or.inl rfl)).1, ?_, ?_⟩
  · exact ((hb.2 ⟨CKM_SHA_1, CKG_MGF1_SHA1, 20⟩ rfl rfl).2.2 MD.sha256 MD.sha1
      (by decide) (by decide) (by decide)).1
  · exact ((hb.2 ⟨CKM_SHA_1, CKG_MGF1_SHA1, 20⟩ rfl rfl).2.2 MD.sha256 MD.sha1
      (by decide) (by decide) (by decide)).2

/-- Modelled from the spec: library behavior for the C1 run.  Type-1
padding produces a full-width block and fails when the input plus the
11 bytes of PKCS#1 v1.5 overhead exceeds the target width (§4.2:
"fails if the digest-plus-envelope is too large for the target
width"); pass-through padding demands exact length; the hardware
signature is a deterministic 256-byte RSA block. -/
def signExtA : SignExt :=
  { digestFinal := fun _ => none,
    prepare := fun _ _ => none,
    padType1 := fun tlen f =>
      if f.length + 11 ≤ tlen then
        some (0 :: 1 :: (List.replicate (tlen - f.length - 3) 255 ++ 0 :: f))
      else none,
    padPss := fun _ _ _ _ => none,
    padNone := fun tlen f => if f.length = tlen then some f else none,
    pivSign := fun _ _ _ => (YKPIV_OK, List.replicate 256 9),
    stripDER := fun l _ => (CKR_OK, l) }

/-- A raw `CKM_RSA_PKCS` signing operation over an RSA-2048 key with a
35-byte DigestInfo buffered, ready for its final call. -/
def preStC1 : OpInfo :=
  { opInfo0 with
    mechanism := CKM_RSA_PKCS,
    out_len := 256,
    buf := List.replicate 35 7,
    sign := ⟨true, YKPIV_ALGO_RSA2048, 0x9a, RSA_PKCS1_PADDING, none, none, 0⟩ }

set_option maxRecDepth 16384 in
/-- C1 (code bug): a final call with an undersized caller buffer returns
`CKR_BUFFER_TOO_SMALL` only after overwriting the operation buffer with
the padded block (its length advances from 35 to 256 bytes), so the
state is consumed; the retried call with ample capacity then re-pads the
already-padded block and fails with `CKR_FUNCTION_FAILED` instead of
reproducing the result. -/
theorem sign_final_buffer_too_small_not_retryable :
    (sign_mechanism_final signExtA preStC1 0).rv = CKR_BUFFER_TOO_SMALL ∧
    preStC1.buf.length = 35 ∧
    (sign_mechanism_final signExtA preStC1 0).st.buf.length = 256 ∧
    (sign_mechanism_final signExtA
      ((sign_mechanism_final signExtA preStC1 0).st) 512).rv = CKR_FUNCTION_FAILED := by
  decide

end Ykcs11
